import Mathlib

/-
Verification of the newborn progress-tracking analytics core.

Modelling conventions (shallow embedding of the Python source):
* Python floats are modelled as exact rationals (ℚ); decimal literals are
  taken at face value (0.3 = 3/10 and so on).
* Python `datetime` values are modelled as rational minutes elapsed since a
  midnight epoch, so `dt.hour` becomes `(⌊t / 60⌋ mod 24)` and differences in
  minutes are plain subtraction; `(a - b).total_seconds() / 60` is `a - b`.
* Python `date` values are modelled as a year/month/day triple; `(a - b).days`
  is computed through a civil-calendar day-number conversion.
* A Python expression that can raise (dictionary lookup = KeyError, `min` of an
  empty iterable = ValueError, division = ZeroDivisionError) is modelled in the
  Option monad, `none` standing for the raised exception.
* The JSON-string decoding branches of the record processor are storage-layer
  plumbing; session and milestone lists are modelled already parsed.
-/

/-- Division as Python performs it: dividing by zero raises
(`ZeroDivisionError`), modelled as `none`. -/
def pydiv (a b : ℚ) : Option ℚ :=
  if b = 0 then none else some (a / b)

/-- Python truthiness of an optional float: `None` and `0.0` are falsy. -/
def truthy (x : Option ℚ) : Bool :=
  match x with
  | some v => decide (v ≠ 0)
  | none => false

/-- Python `x or 0` on an optional float. -/
def orZero (x : Option ℚ) : ℚ :=
  if truthy x then x.getD 0 else 0

/-- Stable insertion of an element into a list sorted by `key`, placing it
after existing equal keys (matching Python's stable sort). -/
def insertByKey {α : Type} (key : α → ℚ) (a : α) : List α → List α
  | [] => [a]
  | b :: bs => if key a < key b then a :: b :: bs else b :: insertByKey key a bs

/-- Stable sort by a rational key, modelling Python's `list.sort(key=...)`. -/
def sortByKey {α : Type} (key : α → ℚ) : List α → List α
  | [] => []
  | a :: as => insertByKey key a (sortByKey key as)

/-- `needle` is a prefix of `hay` (on character lists). -/
def isPrefixList : List Char → List Char → Bool
  | [], _ => true
  | _ :: _, [] => false
  | a :: as, b :: bs => a == b && isPrefixList as bs

/-- `needle` occurs contiguously inside `hay` (on character lists). -/
def isInfixList (needle : List Char) : List Char → Bool
  | [] => isPrefixList needle []
  | b :: bs => isPrefixList needle (b :: bs) || isInfixList needle bs

/-- Python's `needle in hay` substring test on strings. -/
def substrOf (needle hay : String) : Bool :=
  isInfixList needle.toList hay.toList

/-- Python's `s.lower()`, character by character (the strings of this code
base are ASCII, where this agrees with Python). -/
def strToLower (s : String) : String :=
  ⟨s.data.map Char.toLower⟩

/-- Python dictionary indexing `d[k]`: `none` models the raised `KeyError`. -/
def lookupKey {κ α : Type} [DecidableEq κ] (l : List (κ × α)) (k : κ) : Option α :=
  (l.find? (fun p => p.1 = k)).map (·.2)

/-- A calendar date (Python `datetime.date`). -/
structure SDate where
  year : ℤ
  month : ℤ
  day : ℤ
deriving DecidableEq, Repr

/-- Day number of a civil date (days since 1970-01-01, the standard
`days_from_civil` algorithm), used to model `(a - b).days`. -/
def daysFromCivil (y m d : ℤ) : ℤ :=
  let y := if m ≤ 2 then y - 1 else y
  let era := Int.fdiv y 400
  let yoe := y - era * 400
  let mp := Int.fmod (m + 9) 12
  let doy := Int.fdiv (153 * mp + 2) 5 + d - 1
  let doe := yoe * 365 + Int.fdiv yoe 4 - Int.fdiv yoe 100 + doy
  era * 146097 + doe - 719468

/-- `(a - b).days` on Python dates. -/
def dateDiffDays (a b : SDate) : ℤ :=
  daysFromCivil a.year a.month a.day - daysFromCivil b.year b.month b.day

/-- `calculate_age_in_months` from `app/services/analytics.py`. -/
def calculateAgeInMonths (birth_date reference_date : SDate) : ℤ :=
  let months := (reference_date.year - birth_date.year) * 12
      + (reference_date.month - birth_date.month)
  let months := if reference_date.day < birth_date.day then months - 1 else months
  max 0 months

/-- Round to the nearest integer, ties to even (Python's `round`). -/
def roundHalfEven (q : ℚ) : ℤ :=
  let f := ⌊q⌋
  let r := q - f
  if r < 1/2 then f
  else if 1/2 < r then f + 1
  else if Int.emod f 2 = 0 then f else f + 1

/-- Python `round(x, 1)` (idealised to exact decimal arithmetic). -/
def pyRound1 (q : ℚ) : ℚ :=
  (roundHalfEven (q * 10) : ℚ) / 10

/-- The baby profile fields the analytics core reads (`app/models/models.py`:
`Baby.date_of_birth`, `Baby.gender`; a NULL gender column is `none`). -/
structure Baby where
  dateOfBirth : SDate
  gender : Option String
deriving DecidableEq, Repr

/-- WHO weight-for-age table from `app/services/analytics.py`
(`WHO_WEIGHT_FOR_AGE`): gender, then age-in-months, then the five anchors. -/
def whoWeightForAge : List (String × List (ℤ × List ℚ)) :=
  [(("male"),
    [(0, [2.5, 2.9, 3.3, 3.7, 4.0]),
     (1, [3.4, 3.9, 4.5, 5.1, 5.5]),
     (2, [4.3, 4.9, 5.6, 6.3, 6.8]),
     (3, [5.0, 5.7, 6.4, 7.2, 7.8])]),
   (("female"),
    [(0, [2.4, 2.8, 3.2, 3.6, 3.9]),
     (1, [3.2, 3.6, 4.2, 4.8, 5.2]),
     (2, [3.9, 4.5, 5.1, 5.8, 6.2]),
     (3, [4.5, 5.2, 5.8, 6.6, 7.1])])]

/-- `WHO_HEIGHT_FOR_AGE` (only months 0 and 1 are present in the source). -/
def whoHeightForAge : List (String × List (ℤ × List ℚ)) :=
  [(("male"),
    [(0, [46.1, 48.0, 49.9, 51.8, 53.4]),
     (1, [50.8, 52.8, 54.7, 56.7, 58.4])]),
   (("female"),
    [(0, [45.4, 47.3, 49.1, 51.0, 52.7]),
     (1, [49.8, 51.7, 53.7, 55.6, 57.4])])]

/-- `WHO_HEAD_CIRCUMFERENCE_FOR_AGE` (only month 0 is present). -/
def whoHeadCircumferenceForAge : List (String × List (ℤ × List ℚ)) :=
  [(("male"), [(0, [32.4, 33.6, 34.5, 35.4, 36.1])]),
   (("female"), [(0, [31.9, 33.0, 33.9, 34.8, 35.5])])]

/-- The fixed percentile ladder (default `percentiles` argument of
`interpolate_percentile`). -/
def percentileLadder : List ℚ := [3, 15, 50, 85, 97]

/-- The bracketing loop of `interpolate_percentile`
(`for i in range(len(standards) - 1): if standards[i] <= value < standards[i+1]`),
returning `none` when no bracket matches.  The loop's division cannot raise:
its guard forces `standards[i] < standards[i+1]`. -/
def interpScan (value : ℚ) : List ℚ → List ℚ → Option ℚ
  | s₀ :: s₁ :: ss, p₀ :: p₁ :: ps =>
    if s₀ ≤ value ∧ value < s₁ then
      some (p₀ + (value - s₀) / (s₁ - s₀) * (p₁ - p₀))
    else interpScan value (s₁ :: ss) (p₁ :: ps)
  | _, _ => none

/-- `interpolate_percentile` from `app/services/analytics.py`.  The only
expression of the source that can raise on a 5-point anchor list is the
low-range division `value / standards[0]` (when `standards[0] == 0`), kept as
`pydiv`; a `none` result models that exception. -/
def interpolatePercentile (value : ℚ) (standards percentiles : List ℚ) : Option ℚ :=
  if value ≤ standards.headD 0 then
    (pydiv value (standards.headD 0)).map (fun r => percentiles.headD 0 * r)
  else if standards.getLastD 0 ≤ value then
    some (percentiles.getLastD 0)
  else
    match interpScan value standards percentiles with
    | some r => some r
    | none => some (percentiles.getLastD 0)

/-- Gender resolution, the first line of `calculate_growth_percentile`:
`baby.gender.lower() if baby.gender else "male"` (absent or empty string is
falsy and defaults to male; any other string is merely lowercased). -/
def resolveGender (gender : Option String) : String :=
  match gender with
  | none => ("male")
  | some g => if g = ("") then ("male") else strToLower g

/-- `min(keys, key=lambda m: abs(m - age_months))`: first key at minimal
absolute distance (`none` models `min` of an empty iterable raising). -/
def closestKey (keys : List ℤ) (age_months : ℤ) : Option ℤ :=
  match keys with
  | [] => none
  | k :: ks =>
    some (ks.foldl (fun best m => if |m - age_months| < |best - age_months| then m else best) k)

/-- Result dictionary of `calculate_growth_percentile`. -/
structure GrowthResult where
  weight_percentile : Option ℚ
  height_percentile : Option ℚ
  head_percentile : Option ℚ
  overall_percentile : ℚ
deriving DecidableEq, Repr

/-- Body of `calculate_growth_percentile` after its first line resolved the
gender string.  `none` models a raised exception (in particular the `KeyError`
of an unrecognised gender, or of a month missing from the height or head
tables). -/
def calculateGrowthPercentileResolved (gender : String) (birth : SDate)
    (weight height head_circumference : Option ℚ) (record_date : SDate) :
    Option GrowthResult := do
  let age_months := calculateAgeInMonths birth record_date
  let weightTable ← lookupKey whoWeightForAge gender
  let closest_month ← closestKey (weightTable.map (·.1)) age_months
  let weight_percentile ← match weight with
    | none => pure none
    | some w => do
      let weight_standards ← lookupKey weightTable closest_month
      let p ← interpolatePercentile w weight_standards percentileLadder
      pure (some p)
  let height_percentile ← match height with
    | none => pure none
    | some hv => do
      let genderTable ← lookupKey whoHeightForAge gender
      let height_standards ← lookupKey genderTable closest_month
      let p ← interpolatePercentile hv height_standards percentileLadder
      pure (some p)
  let head_percentile ← match head_circumference with
    | none => pure none
    | some hc => do
      let genderTable ← lookupKey whoHeadCircumferenceForAge gender
      let head_standards ← lookupKey genderTable closest_month
      let p ← interpolatePercentile hc head_standards percentileLadder
      pure (some p)
  let vals := [weight_percentile, height_percentile, head_percentile].filterMap id
  let overall := if vals = [] then 50 else vals.sum / (vals.length : ℚ)
  pure { weight_percentile := weight_percentile,
         height_percentile := height_percentile,
         head_percentile := head_percentile,
         overall_percentile := overall }

/-- `calculate_growth_percentile` from `app/services/analytics.py`. -/
def calculateGrowthPercentile (baby : Baby)
    (weight height head_circumference : Option ℚ) (record_date : SDate) :
    Option GrowthResult :=
  calculateGrowthPercentileResolved (resolveGender baby.gender) baby.dateOfBirth
    weight height head_circumference record_date

/-- A raw sleep session as stored on the record (`sleep_schedule` entries):
`start_time` (required), optional `end_time`, optional `quality`.  Timestamps
are minutes since a midnight epoch. -/
structure SleepSession where
  start_time : ℚ
  end_time : Option ℚ
  quality : Option String
deriving DecidableEq, Repr

/-- A normalised sleep session (the dictionaries built in the first loop of
`calculate_sleep_quality_index`). -/
structure NormSleep where
  start : ℚ
  endTime : ℚ
  duration : ℚ
  is_night : Bool
  quality : String
deriving DecidableEq, Repr

/-- The hour-of-day of a timestamp (`dt.hour`). -/
def hourOf (t : ℚ) : ℤ :=
  Int.emod ⌊t / 60⌋ 24

/-- One iteration of the session-normalisation loop of
`calculate_sleep_quality_index`: a missing end time defaults to `now`
(`datetime.now()` in the source), duration is end minus start in minutes,
night means a start hour ≥ 20 or ≤ 6, quality defaults to `"good"`. -/
def normSleepSession (now : ℚ) (s : SleepSession) : NormSleep :=
  let start := s.start_time
  let endT := match s.end_time with
    | some e => e
    | none => now
  { start := start,
    endTime := endT,
    duration := endT - start,
    is_night := decide (20 ≤ hourOf start ∨ hourOf start ≤ 6),
    quality := s.quality.getD ("good") }

/-- Interruption count: consecutive sorted sessions whose gap
`next.start - this.end` is under 30 minutes. -/
def countInterruptions : List NormSleep → ℕ
  | a :: b :: rest =>
    (if b.start - a.endTime < 30 then 1 else 0) + countInterruptions (b :: rest)
  | _ => 0

/-- Per-session quality weight: good 1.0, fair 0.7, anything else 0.4. -/
def qualityWeight (q : String) : ℚ :=
  if q = ("good") then 1 else if q = ("fair") then 0.7 else 0.4

/-- `calculate_sleep_quality_index` from `app/services/analytics.py`.  `now`
is the evaluation time substituted for a missing session end.  (The source's
`expected_sleep` table is dead code and is omitted.)  A `none` result models a
raised exception; every division of the source is either by a non-zero
constant, guarded (`night/total` only when `total > 0`), or by the length of a
non-empty list. -/
def calculateSleepQualityIndex (sleep_schedule : List SleepSession) (now : ℚ) :
    Option ℚ :=
  if sleep_schedule = [] then some 50 else
  let sessions0 := sleep_schedule.map (normSleepSession now)
  let total_sleep_minutes := (sessions0.map (·.duration)).sum
  let night_sleep_minutes := ((sessions0.filter (·.is_night)).map (·.duration)).sum
  let sessions := sortByKey (·.start) sessions0
  let total_interruptions := countInterruptions sessions
  let hours_slept := total_sleep_minutes / 60
  do
    let night_sleep_frac ←
      if 0 < total_sleep_minutes then pydiv night_sleep_minutes total_sleep_minutes
      else some 0
    let quality_factor ←
      pydiv ((sessions.map (fun s => qualityWeight s.quality)).sum)
        (sessions.length : ℚ)
    let interruption_factor := max 0.5 (1 - (total_interruptions : ℚ) * 0.1)
    let duration_score := min 100 (hours_slept / 14 * 100)
    let night_frac_score := night_sleep_frac * 100
    let continuity_score := quality_factor * interruption_factor * 100
    let score := duration_score * 0.4 + night_frac_score * 0.3 + continuity_score * 0.3
    some (min 100 (max 0 score))

/-- A raw feeding session (`feeding_times` entries): `start_time` (required),
optional `end_time`, optional `amount`, optional `type`. -/
structure FeedSession where
  start_time : ℚ
  end_time : Option ℚ
  amount : Option ℚ
  type : Option String
deriving DecidableEq, Repr

/-- A normalised feed (the dictionaries built in the loop of
`calculate_feeding_efficiency`). -/
structure NormFeed where
  start : ℚ
  duration : ℚ
  amount : ℚ
  type : String
deriving DecidableEq, Repr, Inhabited

/-- One iteration of the feed-normalisation loop: a missing end time means a
default 15-minute duration, `amount` defaults to 0, `type` to `"unknown"`. -/
def normFeed (f : FeedSession) : NormFeed :=
  { start := f.start_time,
    duration := match f.end_time with
      | some e => e - f.start_time
      | none => 15,
    amount := f.amount.getD 0,
    type := f.type.getD ("unknown") }

/-- Consecutive start-to-start intervals, in hours. -/
def consecStartIntervals : List NormFeed → List ℚ
  | a :: b :: rest => (b.start - a.start) / 60 :: consecStartIntervals (b :: rest)
  | _ => []

/-- Interval-regularity block of `calculate_feeding_efficiency`: 0 when fewer
than two sessions, else `max(0, 1 - avg_deviation / expected_feed_interval)`. -/
def intervalRegularityScore (intervals : List ℚ) (expected_feed_interval : ℚ) :
    Option ℚ :=
  if intervals = [] then some 0 else do
    let avg_deviation ←
      pydiv ((intervals.map (fun i => |i - expected_feed_interval|)).sum)
        (intervals.length : ℚ)
    let frac ← pydiv avg_deviation expected_feed_interval
    some (max 0 (1 - frac))

/-- Feeds-per-day block of `calculate_feeding_efficiency`: only computed with
at least two feeds spanning at least 12 hours, else the 0.7 default. -/
def feedFrequencyScoreFn (feeds : List NormFeed) (expected_feeds_per_day : ℚ) :
    Option ℚ :=
  if 2 ≤ feeds.length then
    let time_span := ((feeds.getLastD default).start - (feeds.headD default).start) / 60
    if 12 ≤ time_span then do
      let per ← pydiv (feeds.length : ℚ) time_span
      let frac ← pydiv (|per * 24 - expected_feeds_per_day|) expected_feeds_per_day
      some (1 - min 1 frac)
    else some 0.7
  else some 0.7

/-- Per-type duration block of `calculate_feeding_efficiency` (`target` is 15
for bottle feeds, 25 for breast feeds); 0.7 when no feed of the type exists.
The division by `target` is by a non-zero literal at both call sites. -/
def typeDurationScore (typed_feeds : List NormFeed) (target : ℚ) : Option ℚ :=
  if typed_feeds = [] then some 0.7 else do
    let avg ← pydiv ((typed_feeds.map (·.duration)).sum) (typed_feeds.length : ℚ)
    some (1 - min 1 (|avg - target| / target))

/-- `calculate_feeding_efficiency` from `app/services/analytics.py`.  A `none`
result models a raised exception.  (`total_amount` of the source is dead code
and is omitted; the unused `avg_duration` is kept because it contains a
guarded division.) -/
def calculateFeedingEfficiency (feeding_times : List FeedSession)
    (baby_age_months : ℤ) : Option ℚ :=
  if feeding_times = [] then some 50 else
  let expected_feeds_per_day : ℚ :=
    if baby_age_months < 1 then 8
    else if baby_age_months < 3 then 7
    else if baby_age_months < 6 then 6
    else 5
  let expected_feed_interval : ℚ :=
    if baby_age_months < 1 then 2
    else if baby_age_months < 3 then 3
    else if baby_age_months < 6 then 3.5
    else 4
  let feeds0 := feeding_times.map normFeed
  let total_duration := (feeds0.map (·.duration)).sum
  let feeds := sortByKey (·.start) feeds0
  let intervals := consecStartIntervals feeds
  do
    let interval_regularity ← intervalRegularityScore intervals expected_feed_interval
    let feed_frequency_score ← feedFrequencyScoreFn feeds expected_feeds_per_day
    let _avg_duration ←
      if feeds = [] then some 0 else pydiv total_duration (feeds.length : ℚ)
    let bottle_feeds := feeds.filter (fun f => f.type = ("bottle"))
    let breast_feeds := feeds.filter (fun f => f.type = ("breast"))
    let bottle_score ← typeDurationScore bottle_feeds 15
    let breast_score ← typeDurationScore breast_feeds 25
    let duration_score :=
      if ¬bottle_feeds = [] ∧ ¬breast_feeds = [] then (bottle_score + breast_score) / 2
      else if ¬bottle_feeds = [] then bottle_score
      else if ¬breast_feeds = [] then breast_score
      else 0.7
    let final_score :=
      (interval_regularity * 0.4 + feed_frequency_score * 0.3 + duration_score * 0.3) * 100
    some (min 100 (max 0 final_score))

/-- A milestone entry (`milestones` entries): the free-text label (required —
the source indexes `m["milestone"]` unconditionally) and the optional,
already-parsed achieved date.  (An unparsable date string is skipped by the
source via `continue`, which coincides with it being absent here.) -/
structure MilestoneEntry where
  milestone : String
  achieved_date : Option SDate
deriving DecidableEq, Repr

/-- The `expected_milestones` catalog hard-coded in
`calculate_developmental_score`, in source (insertion) order. -/
def expectedMilestones : List (ℤ × List String) :=
  [(1, ["responds to sounds", "follows objects with eyes", "lifts head briefly"]),
   (2, ["holds head up", "begins to smile", "coos and makes sounds"]),
   (3, ["recognizes faces", "reaches for objects", "laughs"]),
   (4, ["rolls over", "holds head steady", "pushes up on arms"])]

/-- The bidirectional fuzzy label match of the source:
`expected in achieved or achieved in expected`. -/
def fuzzyMatch (a b : String) : Bool :=
  substrOf a b || substrOf b a

/-- The early-achievement search of the bonus loop: the first catalog month
whose list contains a fuzzy match for the (lowercased) label. -/
def findFirstMatchMonth (label : String) : List (ℤ × List String) → Option ℤ
  | [] => none
  | (month, month_milestones) :: rest =>
    if month_milestones.any (fun m => substrOf label m || substrOf m label) then
      some month
    else findFirstMatchMonth label rest

/-- One iteration of the bonus loop of `calculate_developmental_score`:
5 points when the entry has an achieved date and the baby's age at that date
is below the first catalog month fuzzily matching the entry's label. -/
def milestoneBonus (baby : Baby) (m : MilestoneEntry) : ℚ :=
  match m.achieved_date with
  | none => 0
  | some achieved_date =>
    match findFirstMatchMonth (strToLower m.milestone) expectedMilestones with
    | none => 0
    | some month =>
      if calculateAgeInMonths baby.dateOfBirth achieved_date < month then 5 else 0

/-- `calculate_developmental_score` from `app/services/analytics.py`.  A
`none` result models a raised exception; the single division is guarded by
`all_expected` being non-empty. -/
def calculateDevelopmentalScore (milestones : List MilestoneEntry)
    (baby_age_months : ℤ) (baby : Baby) : Option ℚ :=
  if milestones = [] then some 50 else
  let all_expected :=
    (expectedMilestones.filter (fun p => p.1 ≤ baby_age_months)).foldl
      (fun acc p => acc ++ p.2) []
  if all_expected = [] then some 70 else
  let achieved := milestones.map (fun m => strToLower m.milestone)
  let matched :=
    (all_expected.filter (fun e => achieved.any (fun a => fuzzyMatch e a))).length
  do
    let base_score ←
      if all_expected = [] then some 50
      else (pydiv (matched : ℚ) (all_expected.length : ℚ)).map (· * 100)
    let bonus := milestones.foldl (fun b m => b + milestoneBonus baby m) 0
    some (min 100 (base_score + bonus))

/-- A progress record (`app/models/models.py` `BabyProgress`), restricted to
the fields the analytics core reads or writes, plus its identifying fields.
A NULL/absent session list and an empty one are both falsy in the source, so
both are modelled as `[]`. -/
structure ProgressRecord where
  baby_id : ℤ
  record_date : SDate
  weight : Option ℚ
  height : Option ℚ
  head_circumference : Option ℚ
  feeding_times : List FeedSession
  sleep_schedule : List SleepSession
  milestones : List MilestoneEntry
  growth_percentile : Option ℚ
  sleep_quality_index : Option ℚ
  feeding_efficiency : Option ℚ
  developmental_score : Option ℚ
deriving DecidableEq, Repr

/-- The growth block of `process_baby_progress`: only entered when some
measurement is present (`any(x is not None ...)`); writes
`overall_percentile` onto the record. -/
def stepGrowth (baby : Baby) (p : ProgressRecord) : Option ProgressRecord :=
  if p.weight.isSome ∨ p.height.isSome ∨ p.head_circumference.isSome then
    (calculateGrowthPercentile baby p.weight p.height p.head_circumference
        p.record_date).map
      (fun g => { p with growth_percentile := some g.overall_percentile })
  else some p

/-- The sleep block of `process_baby_progress` (`if progress.sleep_schedule:`). -/
def stepSleep (p : ProgressRecord) (now : ℚ) : Option ProgressRecord :=
  if p.sleep_schedule = [] then some p
  else
    (calculateSleepQualityIndex p.sleep_schedule now).map
      (fun s => { p with sleep_quality_index := some s })

/-- The feeding block of `process_baby_progress`
(`if progress.feeding_times:`). -/
def stepFeeding (p : ProgressRecord) (baby_age_months : ℤ) : Option ProgressRecord :=
  if p.feeding_times = [] then some p
  else
    (calculateFeedingEfficiency p.feeding_times baby_age_months).map
      (fun s => { p with feeding_efficiency := some s })

/-- The milestone block of `process_baby_progress`
(`if progress.milestones:`). -/
def stepDevelopment (p : ProgressRecord) (baby_age_months : ℤ) (baby : Baby) :
    Option ProgressRecord :=
  if p.milestones = [] then some p
  else
    (calculateDevelopmentalScore p.milestones baby_age_months baby).map
      (fun s => { p with developmental_score := some s })

/-- `process_baby_progress` from `app/services/analytics.py`, with the owning
baby supplied (as on both endpoint call sites) and `now` the evaluation time
used for open sleep sessions.  A `none` result models a raised exception. -/
def processBabyProgress (baby : Baby) (progress : ProgressRecord) (now : ℚ) :
    Option ProgressRecord :=
  let baby_age_months := calculateAgeInMonths baby.dateOfBirth progress.record_date
  do
    let p1 ← stepGrowth baby progress
    let p2 ← stepSleep p1 now
    let p3 ← stepFeeding p2 baby_age_months
    stepDevelopment p3 baby_age_months baby

/-- The developmental trend expression of `get_baby_insights`
(`app/api/endpoints/progress.py`), as a function of the chronologically first
and last filtered records' `developmental_score` fields.  The source tests the
fields for Python truthiness (`None` and `0.0` are both falsy). -/
def developmentTrend (first_score last_score : Option ℚ) : String :=
  if truthy last_score ∧ truthy first_score ∧ first_score.getD 0 < last_score.getD 0 then
    ("improving")
  else if truthy last_score ∧ truthy first_score ∧ last_score.getD 0 = first_score.getD 0 then
    ("stable")
  else if truthy last_score then ("as expected")
  else ("not enough data")

/-- The corrected specification of the developmental trend, written from the
amended claim: a zero score counts as absent; when both endpoint scores are
present and non-zero the strict comparison yields `improving`/`stable`, but a
strictly lower last score falls through to `as expected` (the code has no
`declining` branch for development); `as expected` also covers a present last
score with an absent first one, and `not enough data` an absent last score. -/
def developmentTrendSpec (first_score last_score : Option ℚ) : String :=
  if ¬truthy last_score then ("not enough data")
  else if ¬truthy first_score then ("as expected")
  else if first_score.getD 0 < last_score.getD 0 then ("improving")
  else if last_score.getD 0 = first_score.getD 0 then ("stable")
  else ("as expected")

/-- The average expression of `get_baby_insights`, shared by all four metrics:
`sum(r.f or 0 for r in records if r.f) / len([r for r in records if r.f])
if any(r.f for r in records) else None`, over the list of a field's values. -/
def avgField (xs : List (Option ℚ)) : Option ℚ :=
  if xs.any truthy then
    some (((xs.filter truthy).map orZero).sum / ((xs.filter truthy).length : ℚ))
  else none

/-- The corrected specification of the aggregate averages, written from the
amended claim: the arithmetic mean over the values that are present and
non-zero, unset when every record's value is absent or zero. -/
def avgFieldSpec (xs : List (Option ℚ)) : Option ℚ :=
  let vs := xs.filterMap (fun x =>
    match x with
    | some v => if v ≠ 0 then some v else none
    | none => none)
  if vs = [] then none else some (vs.sum / (vs.length : ℚ))

/-- `insights["growth"]["average_percentile"]` over the filtered records. -/
def averageGrowthPercentile (records : List ProgressRecord) : Option ℚ :=
  avgField (records.map (·.growth_percentile))

/-- `insights["sleep"]["average_quality"]` over the filtered records. -/
def averageSleepQuality (records : List ProgressRecord) : Option ℚ :=
  avgField (records.map (·.sleep_quality_index))

/-- `insights["feeding"]["average_efficiency"]` over the filtered records. -/
def averageFeedingEfficiency (records : List ProgressRecord) : Option ℚ :=
  avgField (records.map (·.feeding_efficiency))

/-- `insights["development"]["average_score"]` over the filtered records. -/
def averageDevelopmentalScore (records : List ProgressRecord) : Option ℚ :=
  avgField (records.map (·.developmental_score))

/-- The shared shape of the three growth-rate blocks of `get_baby_insights`
(they differ only in the measurement field and the scaling of the per-day
difference): present only with at least two filtered records, a strictly
positive day span between the first and last, and truthy endpoint values;
the result is `round(scale((last - first) / days), 1)`. -/
def twoPointRate (field : ProgressRecord → Option ℚ) (scale : ℚ → ℚ)
    (records : List ProgressRecord) : Option ℚ :=
  if 2 ≤ records.length then
    match records.head?, records.getLast? with
    | some first, some last =>
      let days_diff := dateDiffDays last.record_date first.record_date
      if 0 < days_diff then
        if truthy (field first) ∧ truthy (field last) then
          some (pyRound1 (scale
            (((field last).getD 0 - (field first).getD 0) / (days_diff : ℚ))))
        else none
      else none
    | _, _ => none
  else none

/-- `insights["growth"]["weight_gain_per_week"]`:
`round(((last.weight - first.weight) / days) * 7 * 1000, 1)` grams/week. -/
def weightGainPerWeek : List ProgressRecord → Option ℚ :=
  twoPointRate (·.weight) (fun per_day => per_day * 7 * 1000)

/-- `insights["growth"]["height_gain_per_month"]`:
`round(((last.height - first.height) / days) * 30, 1)` cm/month. -/
def heightGainPerMonth : List ProgressRecord → Option ℚ :=
  twoPointRate (·.height) (fun per_day => per_day * 30)

/-- `insights["growth"]["head_circumference_gain_per_month"]`:
`round(((last.hc - first.hc) / days) * 30, 1)` cm/month. -/
def headGainPerMonth : List ProgressRecord → Option ℚ :=
  twoPointRate (·.head_circumference) (fun per_day => per_day * 30)

theorem pydiv_eq_some {a b : ℚ} (h : b ≠ 0) : pydiv a b = some (a / b) := by
  simp [pydiv, h]

theorem pydiv_isSome {a b : ℚ} (h : b ≠ 0) : (pydiv a b).isSome := by
  simp [pydiv, h]

theorem isSome_bind {α β : Type} {x : Option α} {f : α → Option β}
    (hx : x.isSome) (hf : ∀ a, (f a).isSome) : (x >>= f).isSome := by
  cases x with
  | none => simp at hx
  | some a => simpa using hf a

theorem insertByKey_length {α : Type} (key : α → ℚ) (a : α) (l : List α) :
    (insertByKey key a l).length = l.length + 1 := by
  induction l with
  | nil => rfl
  | cons b bs ih =>
    by_cases h : key a < key b <;> simp [insertByKey, h, ih]

theorem sortByKey_length {α : Type} (key : α → ℚ) (l : List α) :
    (sortByKey key l).length = l.length := by
  induction l with
  | nil => rfl
  | cons a as ih => simp [sortByKey, insertByKey_length, ih]

theorem sortByKey_ne_nil {α : Type} (key : α → ℚ) {l : List α} (h : l ≠ []) :
    sortByKey key l ≠ [] := by
  intro hc
  apply h
  have := sortByKey_length key l
  rw [hc] at this
  exact List.length_eq_zero.mp this.symm

theorem truthy_some_iff {v : ℚ} : truthy (some v) = true ↔ v ≠ 0 := by
  simp [truthy]

/-- C1 (counterexample): with both endpoint developmental scores present and
the last (50) strictly below the first (60), the code reports `as expected`,
not `declining` as the claim states; and with both endpoint scores present
but equal to 0.0, it reports `not enough data`, not `stable`. -/
theorem developmentTrend_no_declining_branch :
    developmentTrend (some 60) (some 50) = ("as expected") ∧
    developmentTrend (some 0) (some 0) = ("not enough data") := by
  constructor <;> rfl

/-- C1 (amended): the developmental trend classification treats a zero score
as absent (Python truthiness); with both endpoint scores present and non-zero
it reports `improving` on strict increase and `stable` on equality, but a
strict decrease falls through to `as expected` (there is no `declining`
branch); `as expected` also covers a truthy last score with a falsy first
one, and `not enough data` a falsy last score. -/
theorem developmentTrend_eq_spec (first_score last_score : Option ℚ) :
    developmentTrend first_score last_score =
      developmentTrendSpec first_score last_score := by
  unfold developmentTrend developmentTrendSpec
  by_cases hl : truthy last_score = true
  · by_cases hf : truthy first_score = true
    · rcases lt_trichotomy (first_score.getD 0) (last_score.getD 0) with h | h | h
      · simp [hl, hf, h, not_lt_of_gt h, ne_of_gt h]
      · simp [hl, hf, h, lt_irrefl]
      · simp [hl, hf, not_lt_of_gt h, (ne_of_gt h).symm,
          not_lt.mpr (le_of_lt h)]
    · simp [hl, hf]
  · simp [hl]

/-- C5 (counterexample): on the strictly decreasing (hence not non-decreasing)
anchor sequence `[5, 4, 3, 2, 1]` the interpolator does not fail — there is no
`InvalidReferenceData` condition anywhere in the code — it silently returns
`3 * (4.5 / 5) = 2.7` through its low-range branch. -/
theorem interpolatePercentile_silent_on_decreasing :
    interpolatePercentile 4.5 [5, 4, 3, 2, 1] percentileLadder = some 2.7 := by
  norm_num [interpolatePercentile, percentileLadder, pydiv]

/-- C5 (amended): the interpolator performs no monotonicity validation and has
no `InvalidReferenceData` failure mode: on every 5-point anchor sequence whose
first anchor is non-zero — monotone or not — it returns a plain value (the
only possible exception in the source is a `ZeroDivisionError` when the first
anchor is 0 and the value falls in the low-range branch). -/
theorem interpolatePercentile_total_no_validation (value : ℚ)
    (standards : List ℚ) (hlen : standards.length = 5)
    (h0 : standards.headD 0 ≠ 0) :
    (interpolatePercentile value standards percentileLadder).isSome := by
  match standards, hlen with
  | [s₀, s₁, s₂, s₃, s₄], _ =>
    have hs0 : s₀ ≠ 0 := by simpa using h0
    have hhead : ([s₀, s₁, s₂, s₃, s₄] : List ℚ).headD 0 = s₀ := rfl
    have hlast : ([s₀, s₁, s₂, s₃, s₄] : List ℚ).getLastD 0 = s₄ := rfl
    unfold interpolatePercentile
    rw [hhead, hlast]
    by_cases h1 : value ≤ s₀
    · rw [if_pos h1, pydiv_eq_some hs0]
      rfl
    · rw [if_neg h1]
      by_cases h2 : s₄ ≤ value
      · rw [if_pos h2]
        rfl
      · rw [if_neg h2]
        cases hscan : interpScan value [s₀, s₁, s₂, s₃, s₄] percentileLadder <;>
          simp [hscan]

/-- C5 (witness): the amended totality theorem instantiated on a concrete
non-monotonic anchor sequence. -/
theorem interpolatePercentile_total_no_validation_witness :
    (interpolatePercentile 10 [4, 9, 2, 7, 5] percentileLadder).isSome :=
  interpolatePercentile_total_no_validation 10 [4, 9, 2, 7, 5] (by decide) (by decide)

/-- C6 (counterexample): on the non-decreasing (but not strictly increasing)
anchor sequence `[3, 3, 4, 5, 6]`, the value at the interior anchor index 1
(`anchors[1] = 3`) falls into the low-range branch (`value <= standards[0]`)
and returns `3`, not the ladder's `percentiles[1] = 15`. -/
theorem interp_interior_anchor_fails_non_decreasing :
    interpolatePercentile 3 [3, 3, 4, 5, 6] percentileLadder = some 3 ∧
    interpolatePercentile 3 [3, 3, 4, 5, 6] percentileLadder ≠ some 15 := by
  have h : interpolatePercentile 3 [3, 3, 4, 5, 6] percentileLadder = some 3 := by
    norm_num [interpolatePercentile, percentileLadder, pydiv]
  refine ⟨h, ?_⟩
  rw [h]
  intro hc
  exact absurd (Option.some.inj hc) (by norm_num)

/-- C6 (amended): for every *strictly increasing* 5-point anchor sequence and
the ladder `[3, 15, 50, 85, 97]`, the interpolator applied to the exact anchor
value at each interior index returns exactly the corresponding ladder rung
(the claim's `non-decreasing` hypothesis must be strengthened: an anchor equal
to its predecessor is caught by the low-range branch instead). -/
theorem interp_exact_at_interior_anchors (a₀ a₁ a₂ a₃ a₄ : ℚ)
    (h01 : a₀ < a₁) (h12 : a₁ < a₂) (h23 : a₂ < a₃) (h34 : a₃ < a₄) :
    interpolatePercentile a₁ [a₀, a₁, a₂, a₃, a₄] percentileLadder = some 15 ∧
    interpolatePercentile a₂ [a₀, a₁, a₂, a₃, a₄] percentileLadder = some 50 ∧
    interpolatePercentile a₃ [a₀, a₁, a₂, a₃, a₄] percentileLadder = some 85 := by
  refine ⟨?_, ?_, ?_⟩
  · unfold interpolatePercentile
    rw [show ([a₀, a₁, a₂, a₃, a₄] : List ℚ).headD 0 = a₀ from rfl,
      show ([a₀, a₁, a₂, a₃, a₄] : List ℚ).getLastD 0 = a₄ from rfl,
      if_neg (not_le.mpr h01), if_neg (not_le.mpr (h12.trans (h23.trans h34)))]
    simp only [percentileLadder, interpScan]
    rw [if_neg (fun h => lt_irrefl a₁ h.2), if_pos ⟨le_refl a₁, h12⟩]
    rw [sub_self, zero_div, zero_mul, add_zero]
  · unfold interpolatePercentile
    rw [show ([a₀, a₁, a₂, a₃, a₄] : List ℚ).headD 0 = a₀ from rfl,
      show ([a₀, a₁, a₂, a₃, a₄] : List ℚ).getLastD 0 = a₄ from rfl,
      if_neg (not_le.mpr (h01.trans h12)), if_neg (not_le.mpr (h23.trans h34))]
    simp only [percentileLadder, interpScan]
    rw [if_neg (fun h => absurd h.2 (not_lt.mpr h12.le)),
      if_neg (fun h => lt_irrefl a₂ h.2), if_pos ⟨le_refl a₂, h23⟩]
    rw [sub_self, zero_div, zero_mul, add_zero]
  · unfold interpolatePercentile
    rw [show ([a₀, a₁, a₂, a₃, a₄] : List ℚ).headD 0 = a₀ from rfl,
      show ([a₀, a₁, a₂, a₃, a₄] : List ℚ).getLastD 0 = a₄ from rfl,
      if_neg (not_le.mpr (h01.trans (h12.trans h23))), if_neg (not_le.mpr h34)]
    simp only [percentileLadder, interpScan]
    rw [if_neg (fun h => absurd h.2 (not_lt.mpr (h12.trans h23).le)),
      if_neg (fun h => absurd h.2 (not_lt.mpr h23.le)),
      if_neg (fun h => lt_irrefl a₃ h.2), if_pos ⟨le_refl a₃, h34⟩]
    rw [sub_self, zero_div, zero_mul, add_zero]

/-- C6 (witness): the interior-anchor exactness theorem instantiated on the
strictly increasing anchors `[1, 2, 3, 4, 5]`. -/
theorem interp_exact_at_interior_anchors_witness :
    interpolatePercentile 2 [1, 2, 3, 4, 5] percentileLadder = some 15 ∧
    interpolatePercentile 3 [1, 2, 3, 4, 5] percentileLadder = some 50 ∧
    interpolatePercentile 4 [1, 2, 3, 4, 5] percentileLadder = some 85 :=
  interp_exact_at_interior_anchors 1 2 3 4 5 (by norm_num) (by norm_num)
    (by norm_num) (by norm_num)

/-- C3 (counterexample): a baby whose gender string is `"other"` (non-empty
but unrecognised) makes the growth scorer fail with a `KeyError`
(`WHO_WEIGHT_FOR_AGE["other"]`), modelled as `none` — it does not fall back
to the `"male"` tables, which on the same measurement would succeed. -/
theorem growth_unrecognized_gender_raises :
    calculateGrowthPercentile ⟨⟨2025, 8, 1⟩, some ("other")⟩ none none none
      ⟨2025, 8, 20⟩ = none ∧
    calculateGrowthPercentile ⟨⟨2025, 8, 1⟩, some ("male")⟩ none none none
      ⟨2025, 8, 20⟩ =
      some { weight_percentile := none, height_percentile := none,
             head_percentile := none, overall_percentile := 50 } := by
  constructor
  · decide
  · decide

/-- Helper for C3: the growth scorer body fails (raises `KeyError`) whenever
the resolved gender string keys neither entry of `WHO_WEIGHT_FOR_AGE`. -/
theorem growthResolved_none_of_unknown_gender (gender : String)
    (h₁ : gender ≠ ("male")) (h₂ : gender ≠ ("female")) (birth : SDate)
    (w h hc : Option ℚ) (d : SDate) :
    calculateGrowthPercentileResolved gender birth w h hc d = none := by
  have hm : ¬(("male") = gender) := fun hcon => h₁ hcon.symm
  have hf : ¬(("female") = gender) := fun hcon => h₂ hcon.symm
  simp [calculateGrowthPercentileResolved, lookupKey, whoWeightForAge,
    List.find?, hm, hf]

/-- C3 (amended): gender handling of the growth scorer.  An absent (`None`)
or empty gender string defaults to `"male"`; resolution is case-insensitive in
that two non-empty gender strings with the same lowercasing are scored
identically; but a non-empty gender whose lowercasing is neither `"male"` nor
`"female"` makes the scorer fail with a `KeyError` (modelled `none`) instead
of falling back to the male tables. -/
theorem growth_gender_resolution :
    (∀ (b : Baby) (w h hc : Option ℚ) (d : SDate), b.gender = none →
      calculateGrowthPercentile b w h hc d =
        calculateGrowthPercentileResolved ("male") b.dateOfBirth w h hc d) ∧
    (∀ (b : Baby) (w h hc : Option ℚ) (d : SDate), b.gender = some ("") →
      calculateGrowthPercentile b w h hc d =
        calculateGrowthPercentileResolved ("male") b.dateOfBirth w h hc d) ∧
    (∀ (b : Baby) (g₁ g₂ : String) (w h hc : Option ℚ) (d : SDate),
      g₁ ≠ ("") → g₂ ≠ ("") → strToLower g₁ = strToLower g₂ →
      calculateGrowthPercentile { b with gender := some g₁ } w h hc d =
        calculateGrowthPercentile { b with gender := some g₂ } w h hc d) ∧
    (∀ (b : Baby) (g : String) (w h hc : Option ℚ) (d : SDate),
      b.gender = some g → g ≠ ("") → strToLower g ≠ ("male") →
      strToLower g ≠ ("female") →
      calculateGrowthPercentile b w h hc d = none) := by
  refine ⟨?_, ?_, ?_, ?_⟩
  · intro b w h hc d hb
    simp [calculateGrowthPercentile, hb, resolveGender]
  · intro b w h hc d hb
    simp [calculateGrowthPercentile, hb, resolveGender]
  · intro b g₁ g₂ w h hc d h₁ h₂ hlow
    simp only [calculateGrowthPercentile, resolveGender, if_neg h₁, if_neg h₂]
    rw [hlow]
  · intro b g w h hc d hb h₁ hm hf
    simp only [calculateGrowthPercentile, hb, resolveGender, if_neg h₁]
    exact growthResolved_none_of_unknown_gender (strToLower g) hm hf b.dateOfBirth w h hc d

/-- C3 (witness): the amended gender-resolution theorem instantiated: a baby
with gender `"Unknown"` (lowercasing to `"unknown"`) is rejected with a
`KeyError`. -/
theorem growth_gender_resolution_witness :
    calculateGrowthPercentile ⟨⟨2025, 8, 1⟩, some ("Unknown")⟩ (some 3.3) none none
      ⟨2025, 8, 20⟩ = none :=
  growth_gender_resolution.2.2.2 ⟨⟨2025, 8, 1⟩, some ("Unknown")⟩ ("Unknown")
    (some 3.3) none none ⟨2025, 8, 20⟩ rfl (by decide) (by decide) (by decide)

/-- C2 (code bug): the claim that the growth scorer succeeds for every
age-in-months and every supplied measurement combination is right about the
intent but wrong about the code: the nearest anchor month is chosen from the
*weight* table's keys (0–3) and then used to index the height table, which
only has months 0–1.  A male baby aged 2 months with a height supplied makes
`WHO_HEIGHT_FOR_AGE["male"][2]` raise a `KeyError`, modelled as `none`. -/
theorem growth_scorer_keyerror_on_missing_height_month :
    calculateGrowthPercentile ⟨⟨2025, 8, 1⟩, some ("male")⟩ none (some 55) none
      ⟨2025, 10, 5⟩ = none := by
  decide

/-- Helper for C8: any computed two-point rate requires at least two records
and a strictly positive day span between the chronologically first and last. -/
theorem twoPointRate_only_when (field : ProgressRecord → Option ℚ)
    (scale : ℚ → ℚ) (records : List ProgressRecord) (v : ℚ)
    (h : twoPointRate field scale records = some v) :
    2 ≤ records.length ∧
      ∃ f l, records.head? = some f ∧ records.getLast? = some l ∧
        0 < dateDiffDays l.record_date f.record_date := by
  unfold twoPointRate at h
  by_cases h2 : 2 ≤ records.length
  · rw [if_pos h2] at h
    cases hh : records.head? with
    | none => rw [hh] at h; simp at h
    | some f =>
      cases hl : records.getLast? with
      | none => rw [hh, hl] at h; simp at h
      | some l =>
        by_cases hd : 0 < dateDiffDays l.record_date f.record_date
        · exact ⟨h2, f, l, rfl, rfl, hd⟩
        · rw [hh, hl] at h
          simp [hd] at h
  · rw [if_neg h2] at h
    simp at h

/-- First sample record of the spec's rate scenario: day 0, weight 5.0 kg. -/
def c8rec0 : ProgressRecord :=
  { baby_id := 1, record_date := ⟨2025, 1, 1⟩, weight := some 5, height := none,
    head_circumference := none, feeding_times := [], sleep_schedule := [],
    milestones := [], growth_percentile := none, sleep_quality_index := none,
    feeding_efficiency := none, developmental_score := none }

/-- Second sample record of the spec's rate scenario: day 14, weight 5.3 kg. -/
def c8rec14 : ProgressRecord :=
  { c8rec0 with record_date := ⟨2025, 1, 15⟩, weight := some 5.3 }

/-- C8: the aggregator computes each growth rate only when at least two
filtered records exist and the day span between the first and last record is
strictly positive; and on the spec's scenario — records 14 days apart with
weights 5.0 kg and 5.3 kg — the weight gain per week is exactly
`(5.3 - 5.0) / 14 * 7 * 1000 = 150` grams. -/
theorem growth_rates_two_point (records : List ProgressRecord) (v : ℚ) :
    (weightGainPerWeek records = some v →
      2 ≤ records.length ∧
        ∃ f l, records.head? = some f ∧ records.getLast? = some l ∧
          0 < dateDiffDays l.record_date f.record_date) ∧
    (heightGainPerMonth records = some v →
      2 ≤ records.length ∧
        ∃ f l, records.head? = some f ∧ records.getLast? = some l ∧
          0 < dateDiffDays l.record_date f.record_date) ∧
    (headGainPerMonth records = some v →
      2 ≤ records.length ∧
        ∃ f l, records.head? = some f ∧ records.getLast? = some l ∧
          0 < dateDiffDays l.record_date f.record_date) ∧
    weightGainPerWeek [c8rec0, c8rec14] = some 150 := by
  refine ⟨twoPointRate_only_when _ _ records v,
    twoPointRate_only_when _ _ records v,
    twoPointRate_only_when _ _ records v, ?_⟩
  have hd : dateDiffDays (⟨2025, 1, 15⟩ : SDate) ⟨2025, 1, 1⟩ = 14 := by decide
  norm_num [weightGainPerWeek, twoPointRate, c8rec0, c8rec14, truthy, hd,
    pyRound1, roundHalfEven, List.getLast?]

/-- C8 (witness): the only-when direction applied to the concrete scenario
records, and the scenario value itself. -/
theorem growth_rates_two_point_witness :
    2 ≤ ([c8rec0, c8rec14] : List ProgressRecord).length ∧
      ∃ f l, ([c8rec0, c8rec14] : List ProgressRecord).head? = some f ∧
        ([c8rec0, c8rec14] : List ProgressRecord).getLast? = some l ∧
        0 < dateDiffDays l.record_date f.record_date :=
  (growth_rates_two_point [c8rec0, c8rec14] 150).1
    (growth_rates_two_point [c8rec0, c8rec14] 150).2.2.2

/-- Helper for C9: the values the average's numerator iterates over are
exactly the present-and-non-zero values. -/
theorem filter_truthy_map_orZero (xs : List (Option ℚ)) :
    (xs.filter truthy).map orZero =
      xs.filterMap (fun x =>
        match x with
        | some v => if v ≠ 0 then some v else none
        | none => none) := by
  induction xs with
  | nil => rfl
  | cons a as ih =>
    cases a with
    | none => simpa [List.filter, truthy] using ih
    | some v =>
      by_cases hv : v = 0
      · simp [List.filter, truthy, hv, ih]
      · simp [List.filter, truthy, hv, ih, orZero]

/-- Helper for C9: the code's average expression equals the mean over the
present-and-non-zero values, unset when there is none. -/
theorem avgField_eq_spec (xs : List (Option ℚ)) : avgField xs = avgFieldSpec xs := by
  unfold avgField avgFieldSpec
  rw [← filter_truthy_map_orZero]
  by_cases hany : xs.any truthy = true
  · obtain ⟨a, ha, hta⟩ := List.any_eq_true.mp hany
    have hne : xs.filter truthy ≠ [] := by
      intro hc
      exact List.filter_eq_nil_iff.mp hc a ha hta
    have hne2 : (xs.filter truthy).map orZero ≠ [] := by
      simpa using hne
    simp [hany, hne2]
  · have hnil : xs.filter truthy = [] := by
      rw [List.filter_eq_nil_iff]
      intro a ha hta
      exact hany (List.any_eq_true.mpr ⟨a, ha, hta⟩)
    simp [hany, hnil]

/-- First sample record for the averaging counterexample: a present
developmental score of exactly 0.0. -/
def c9zero : ProgressRecord :=
  { baby_id := 2, record_date := ⟨2025, 2, 1⟩, weight := none, height := none,
    head_circumference := none, feeding_times := [], sleep_schedule := [],
    milestones := [], growth_percentile := none, sleep_quality_index := none,
    feeding_efficiency := none, developmental_score := some 0 }

/-- Second sample record for the averaging counterexample: developmental
score 50. -/
def c9fifty : ProgressRecord :=
  { c9zero with record_date := ⟨2025, 2, 2⟩, developmental_score := some 50 }

/-- C9 (counterexample): the aggregate average filters by Python truthiness,
not presence.  Over two records with developmental scores 0.0 and 50.0 the
code averages only the non-zero one (50, where the claim's mean over present
values would be 25); and over a single record with a present score of 0.0 the
average is unset even though the field is present on a record. -/
theorem average_excludes_present_zero :
    averageDevelopmentalScore [c9zero, c9fifty] = some 50 ∧
    averageDevelopmentalScore [c9zero] = none := by
  constructor
  · norm_num [averageDevelopmentalScore, avgField, c9zero, c9fifty, truthy, orZero]
  · norm_num [averageDevelopmentalScore, avgField, c9zero, truthy]

/-- C9 (amended): each aggregate average equals the arithmetic mean over
exactly those records whose value for that field is present *and non-zero* (a
present 0.0 is excluded by the code's truthiness filter), and the average is
unset exactly when no record carries a non-zero present value. -/
theorem aggregate_averages_over_truthy (records : List ProgressRecord) :
    averageGrowthPercentile records =
      avgFieldSpec (records.map (·.growth_percentile)) ∧
    averageSleepQuality records =
      avgFieldSpec (records.map (·.sleep_quality_index)) ∧
    averageFeedingEfficiency records =
      avgFieldSpec (records.map (·.feeding_efficiency)) ∧
    averageDevelopmentalScore records =
      avgFieldSpec (records.map (·.developmental_score)) :=
  ⟨avgField_eq_spec _, avgField_eq_spec _, avgField_eq_spec _, avgField_eq_spec _⟩

/-- Helper for C7: the interval-regularity block never raises — its two
divisions are by the interval count (non-empty by the guard) and the
age-banded expected interval (a non-zero constant). -/
theorem intervalRegularity_isSome (intervals : List ℚ) (e : ℚ) (he : e ≠ 0) :
    (intervalRegularityScore intervals e).isSome := by
  unfold intervalRegularityScore
  by_cases h : intervals = []
  · simp [h]
  · rw [if_neg h]
    refine isSome_bind ?_ (fun a => isSome_bind (pydiv_isSome he) (fun b => by simp))
    exact pydiv_isSome (Nat.cast_ne_zero.mpr (fun hc => h (List.length_eq_zero.mp hc)))

/-- Helper for C7: the feeds-per-day block never raises — its divisions are by
the observed span (at least 12 hours by the guard) and the age-banded expected
feed count (a non-zero constant). -/
theorem feedFrequency_isSome (feeds : List NormFeed) (e : ℚ) (he : e ≠ 0) :
    (feedFrequencyScoreFn feeds e).isSome := by
  unfold feedFrequencyScoreFn
  by_cases h2 : 2 ≤ feeds.length
  · rw [if_pos h2]
    dsimp only
    by_cases h12 : (12 : ℚ) ≤ ((feeds.getLastD default).start - (feeds.headD default).start) / 60
    · rw [if_pos h12]
      refine isSome_bind ?_ (fun a => isSome_bind (pydiv_isSome he) (fun b => by simp))
      exact pydiv_isSome (by linarith)
    · rw [if_neg h12]
      simp
  · rw [if_neg h2]
    simp

/-- Helper for C7: the per-type duration block never raises — its division is
by the count of the (non-empty, by the guard) typed feed list. -/
theorem typeDuration_isSome (typed_feeds : List NormFeed) (target : ℚ) :
    (typeDurationScore typed_feeds target).isSome := by
  unfold typeDurationScore
  by_cases h : typed_feeds = []
  · simp [h]
  · rw [if_neg h]
    refine isSome_bind ?_ (fun a => by simp)
    exact pydiv_isSome (Nat.cast_ne_zero.mpr (fun hc => h (List.length_eq_zero.mp hc)))

/-- Helper for C7 (and C2's totality part for sleep): the sleep scorer never
raises — the night-minutes ratio is guarded by `total > 0` and the quality
factor divides by the non-empty session count. -/
theorem sleep_isSome (sched : List SleepSession) (now : ℚ) :
    (calculateSleepQualityIndex sched now).isSome := by
  unfold calculateSleepQualityIndex
  by_cases h : sched = []
  · simp [h]
  · rw [if_neg h]
    dsimp only
    have hq : (pydiv
        (List.map (fun s => qualityWeight s.quality)
          (sortByKey (fun x => x.start) (List.map (normSleepSession now) sched))).sum
        ((sortByKey (fun x => x.start)
          (List.map (normSleepSession now) sched)).length : ℚ)).isSome := by
      apply pydiv_isSome
      rw [sortByKey_length, List.length_map]
      exact Nat.cast_ne_zero.mpr (fun hc => h (List.length_eq_zero.mp hc))
    by_cases ht :
        0 < (List.map (fun x => x.duration) (List.map (normSleepSession now) sched)).sum
    · rw [if_pos ht]
      exact isSome_bind (pydiv_isSome (ne_of_gt ht))
        (fun a => isSome_bind hq (fun b => by simp))
    · rw [if_neg ht]
      exact isSome_bind (by simp) (fun a => isSome_bind hq (fun b => by simp))

/-- Helper for C7 (and C2's totality part for feeding): the feeding scorer
never raises — every division is guarded. -/
theorem feeding_isSome (feeds : List FeedSession) (age : ℤ) :
    (calculateFeedingEfficiency feeds age).isSome := by
  unfold calculateFeedingEfficiency
  by_cases h : feeds = []
  · simp [h]
  · rw [if_neg h]
    dsimp only
    have hE : (if age < 1 then (2 : ℚ) else if age < 3 then 3
        else if age < 6 then 3.5 else 4) ≠ 0 := by
      split_ifs <;> norm_num
    have hF : (if age < 1 then (8 : ℚ) else if age < 3 then 7
        else if age < 6 then 6 else 5) ≠ 0 := by
      split_ifs <;> norm_num
    refine isSome_bind (intervalRegularity_isSome _ _ hE)
      (fun r1 => isSome_bind (feedFrequency_isSome _ _ hF) (fun r2 => ?_))
    by_cases hs : sortByKey (fun x => x.start) (List.map normFeed feeds) = []
    · rw [if_pos hs]
      exact isSome_bind (by simp)
        (fun r3 => isSome_bind (typeDuration_isSome _ _)
          (fun r4 => isSome_bind (typeDuration_isSome _ _) (fun r5 => by simp)))
    · rw [if_neg hs]
      exact isSome_bind
        (pydiv_isSome (Nat.cast_ne_zero.mpr (fun hc => hs (List.length_eq_zero.mp hc))))
        (fun r3 => isSome_bind (typeDuration_isSome _ _)
          (fun r4 => isSome_bind (typeDuration_isSome _ _) (fun r5 => by simp)))

/-- Helper for C7 (and C2's totality part for development): the developmental
scorer never raises — its base-score division is guarded by the expected set
being non-empty. -/
theorem development_isSome (ms : List MilestoneEntry) (age : ℤ) (baby : Baby) :
    (calculateDevelopmentalScore ms age baby).isSome := by
  unfold calculateDevelopmentalScore
  by_cases h : ms = []
  · simp [h]
  · rw [if_neg h]
    dsimp only
    by_cases he : (expectedMilestones.filter (fun p => p.1 ≤ age)).foldl
        (fun acc p => acc ++ p.2) [] = []
    · rw [if_pos he]
      simp
    · rw [if_neg he, if_neg he]
      have hlen : ((((expectedMilestones.filter (fun p => p.1 ≤ age)).foldl
          (fun acc p => acc ++ p.2) []).length : ℚ)) ≠ 0 :=
        Nat.cast_ne_zero.mpr (fun hc => he (List.length_eq_zero.mp hc))
      refine isSome_bind ?_ (fun a => by simp)
      simp [pydiv_eq_some hlen]

/-- Helper for C7: a non-positive day span between the first and last record
short-circuits every two-point rate to absent instead of dividing by zero. -/
theorem twoPointRate_none_of_nonpos_span (field : ProgressRecord → Option ℚ)
    (scale : ℚ → ℚ) (records : List ProgressRecord) (f l : ProgressRecord)
    (hh : records.head? = some f) (hl : records.getLast? = some l)
    (hd : dateDiffDays l.record_date f.record_date ≤ 0) :
    twoPointRate field scale records = none := by
  unfold twoPointRate
  by_cases h2 : 2 ≤ records.length
  · rw [if_pos h2, hh, hl]
    dsimp only
    rw [if_neg (not_lt.mpr hd)]
  · rw [if_neg h2]

/-- An empty record used to witness the degenerate aggregator inputs. -/
def c7rec : ProgressRecord :=
  { baby_id := 3, record_date := ⟨2025, 3, 1⟩, weight := none, height := none,
    head_circumference := none, feeding_times := [], sleep_schedule := [],
    milestones := [], growth_percentile := none, sleep_quality_index := none,
    feeding_efficiency := none, developmental_score := none }

/-- C7: each session scorer returns the 50.0 sentinel on an empty list, every
internal division of the sleep, feeding and developmental scorers is guarded
(they never raise, on any input), and a zero (or negative) elapsed-day span
makes the aggregator skip all three growth rates instead of dividing by
zero. -/
theorem scorer_sentinels_and_guards :
    (∀ now : ℚ, calculateSleepQualityIndex [] now = some 50) ∧
    (∀ age : ℤ, calculateFeedingEfficiency [] age = some 50) ∧
    (∀ (age : ℤ) (baby : Baby), calculateDevelopmentalScore [] age baby = some 50) ∧
    (∀ (sched : List SleepSession) (now : ℚ),
      (calculateSleepQualityIndex sched now).isSome) ∧
    (∀ (feeds : List FeedSession) (age : ℤ),
      (calculateFeedingEfficiency feeds age).isSome) ∧
    (∀ (ms : List MilestoneEntry) (age : ℤ) (baby : Baby),
      (calculateDevelopmentalScore ms age baby).isSome) ∧
    (∀ (records : List ProgressRecord) (f l : ProgressRecord),
      records.head? = some f → records.getLast? = some l →
      dateDiffDays l.record_date f.record_date ≤ 0 →
      weightGainPerWeek records = none ∧ heightGainPerMonth records = none ∧
        headGainPerMonth records = none) := by
  refine ⟨fun now => by simp [calculateSleepQualityIndex],
    fun age => by simp [calculateFeedingEfficiency],
    fun age baby => by simp [calculateDevelopmentalScore],
    sleep_isSome, feeding_isSome, development_isSome,
    fun records f l hh hl hd =>
      ⟨twoPointRate_none_of_nonpos_span _ _ records f l hh hl hd,
       twoPointRate_none_of_nonpos_span _ _ records f l hh hl hd,
       twoPointRate_none_of_nonpos_span _ _ records f l hh hl hd⟩⟩

/-- C7 (witness): the degenerate-span clause applied to two records on the
same calendar date (day span 0): no rate is computed. -/
theorem scorer_sentinels_and_guards_witness :
    weightGainPerWeek [c7rec, c7rec] = none ∧
    heightGainPerMonth [c7rec, c7rec] = none ∧
    headGainPerMonth [c7rec, c7rec] = none :=
  scorer_sentinels_and_guards.2.2.2.2.2.2 [c7rec, c7rec] c7rec c7rec rfl rfl
    (by decide)

/-- Frame of the growth block: it touches only `growth_percentile`, and only
when a measurement is present. -/
theorem stepGrowth_fields (baby : Baby) (p p' : ProgressRecord)
    (h : stepGrowth baby p = some p') :
    p'.baby_id = p.baby_id ∧ p'.record_date = p.record_date ∧
    p'.weight = p.weight ∧ p'.height = p.height ∧
    p'.head_circumference = p.head_circumference ∧
    p'.feeding_times = p.feeding_times ∧ p'.sleep_schedule = p.sleep_schedule ∧
    p'.milestones = p.milestones ∧
    (p.weight = none → p.height = none → p.head_circumference = none →
      p'.growth_percentile = p.growth_percentile) ∧
    p'.sleep_quality_index = p.sleep_quality_index ∧
    p'.feeding_efficiency = p.feeding_efficiency ∧
    p'.developmental_score = p.developmental_score := by
  unfold stepGrowth at h
  by_cases hc : p.weight.isSome ∨ p.height.isSome ∨ p.head_circumference.isSome
  · rw [if_pos hc] at h
    cases hg : calculateGrowthPercentile baby p.weight p.height
        p.head_circumference p.record_date with
    | none => rw [hg] at h; simp at h
    | some g =>
      rw [hg] at h
      simp only [Option.map_some'] at h
      obtain rfl := (Option.some.inj h).symm
      refine ⟨rfl, rfl, rfl, rfl, rfl, rfl, rfl, rfl, ?_, rfl, rfl, rfl⟩
      intro hw hh hhc
      rw [hw, hh, hhc] at hc
      simp at hc
  · rw [if_neg hc] at h
    obtain rfl := (Option.some.inj h).symm
    exact ⟨rfl, rfl, rfl, rfl, rfl, rfl, rfl, rfl, fun _ _ _ => rfl, rfl, rfl, rfl⟩

/-- Frame of the sleep block: it touches only `sleep_quality_index`, and only
when the session list is non-empty. -/
theorem stepSleep_fields (p p' : ProgressRecord) (now : ℚ)
    (h : stepSleep p now = some p') :
    p'.baby_id = p.baby_id ∧ p'.record_date = p.record_date ∧
    p'.weight = p.weight ∧ p'.height = p.height ∧
    p'.head_circumference = p.head_circumference ∧
    p'.feeding_times = p.feeding_times ∧ p'.sleep_schedule = p.sleep_schedule ∧
    p'.milestones = p.milestones ∧ p'.growth_percentile = p.growth_percentile ∧
    (p.sleep_schedule = [] → p'.sleep_quality_index = p.sleep_quality_index) ∧
    p'.feeding_efficiency = p.feeding_efficiency ∧
    p'.developmental_score = p.developmental_score := by
  unfold stepSleep at h
  by_cases hc : p.sleep_schedule = []
  · rw [if_pos hc] at h
    obtain rfl := (Option.some.inj h).symm
    exact ⟨rfl, rfl, rfl, rfl, rfl, rfl, rfl, rfl, rfl, fun _ => rfl, rfl, rfl⟩
  · rw [if_neg hc] at h
    cases hs : calculateSleepQualityIndex p.sleep_schedule now with
    | none => rw [hs] at h; simp at h
    | some s =>
      rw [hs] at h
      simp only [Option.map_some'] at h
      obtain rfl := (Option.some.inj h).symm
      exact ⟨rfl, rfl, rfl, rfl, rfl, rfl, rfl, rfl, rfl,
        fun hcon => absurd hcon hc, rfl, rfl⟩

/-- Frame of the feeding block: it touches only `feeding_efficiency`, and
only when the feed list is non-empty. -/
theorem stepFeeding_fields (p p' : ProgressRecord) (age : ℤ)
    (h : stepFeeding p age = some p') :
    p'.baby_id = p.baby_id ∧ p'.record_date = p.record_date ∧
    p'.weight = p.weight ∧ p'.height = p.height ∧
    p'.head_circumference = p.head_circumference ∧
    p'.feeding_times = p.feeding_times ∧ p'.sleep_schedule = p.sleep_schedule ∧
    p'.milestones = p.milestones ∧ p'.growth_percentile = p.growth_percentile ∧
    p'.sleep_quality_index = p.sleep_quality_index ∧
    (p.feeding_times = [] → p'.feeding_efficiency = p.feeding_efficiency) ∧
    p'.developmental_score = p.developmental_score := by
  unfold stepFeeding at h
  by_cases hc : p.feeding_times = []
  · rw [if_pos hc] at h
    obtain rfl := (Option.some.inj h).symm
    exact ⟨rfl, rfl, rfl, rfl, rfl, rfl, rfl, rfl, rfl, rfl, fun _ => rfl, rfl⟩
  · rw [if_neg hc] at h
    cases hs : calculateFeedingEfficiency p.feeding_times age with
    | none => rw [hs] at h; simp at h
    | some s =>
      rw [hs] at h
      simp only [Option.map_some'] at h
      obtain rfl := (Option.some.inj h).symm
      exact ⟨rfl, rfl, rfl, rfl, rfl, rfl, rfl, rfl, rfl, rfl,
        fun hcon => absurd hcon hc, rfl⟩

/-- Frame of the milestone block: it touches only `developmental_score`, and
only when the milestone list is non-empty. -/
theorem stepDevelopment_fields (p p' : ProgressRecord) (age : ℤ) (baby : Baby)
    (h : stepDevelopment p age baby = some p') :
    p'.baby_id = p.baby_id ∧ p'.record_date = p.record_date ∧
    p'.weight = p.weight ∧ p'.height = p.height ∧
    p'.head_circumference = p.head_circumference ∧
    p'.feeding_times = p.feeding_times ∧ p'.sleep_schedule = p.sleep_schedule ∧
    p'.milestones = p.milestones ∧ p'.growth_percentile = p.growth_percentile ∧
    p'.sleep_quality_index = p.sleep_quality_index ∧
    p'.feeding_efficiency = p.feeding_efficiency ∧
    (p.milestones = [] → p'.developmental_score = p.developmental_score) := by
  unfold stepDevelopment at h
  by_cases hc : p.milestones = []
  · rw [if_pos hc] at h
    obtain rfl := (Option.some.inj h).symm
    exact ⟨rfl, rfl, rfl, rfl, rfl, rfl, rfl, rfl, rfl, rfl, rfl, fun _ => rfl⟩
  · rw [if_neg hc] at h
    cases hs : calculateDevelopmentalScore p.milestones age baby with
    | none => rw [hs] at h; simp at h
    | some s =>
      rw [hs] at h
      simp only [Option.map_some'] at h
      obtain rfl := (Option.some.inj h).symm
      exact ⟨rfl, rfl, rfl, rfl, rfl, rfl, rfl, rfl, rfl, rfl, rfl,
        fun hcon => absurd hcon hc⟩

/-- C10: processing a record mutates at most the four derived fields — the
record's identity, date and every raw input are unchanged — and a derived
field whose prerequisite raw input is absent or empty keeps exactly its prior
value. -/
theorem process_frame (baby : Baby) (p : ProgressRecord) (now : ℚ)
    (p' : ProgressRecord) (h : processBabyProgress baby p now = some p') :
    (p'.baby_id = p.baby_id ∧ p'.record_date = p.record_date ∧
     p'.weight = p.weight ∧ p'.height = p.height ∧
     p'.head_circumference = p.head_circumference ∧
     p'.feeding_times = p.feeding_times ∧ p'.sleep_schedule = p.sleep_schedule ∧
     p'.milestones = p.milestones) ∧
    (p.weight = none → p.height = none → p.head_circumference = none →
      p'.growth_percentile = p.growth_percentile) ∧
    (p.sleep_schedule = [] → p'.sleep_quality_index = p.sleep_quality_index) ∧
    (p.feeding_times = [] → p'.feeding_efficiency = p.feeding_efficiency) ∧
    (p.milestones = [] → p'.developmental_score = p.developmental_score) := by
  simp only [processBabyProgress, bind, Option.bind_eq_some] at h
  obtain ⟨p1, h1, p2, h2, p3, h3, h4⟩ := h
  obtain ⟨g1, g2, g3, g4, g5, g6, g7, g8, g9, g10, g11, g12⟩ :=
    stepGrowth_fields baby p p1 h1
  obtain ⟨s1, s2, s3, s4, s5, s6, s7, s8, s9, s10, s11, s12⟩ :=
    stepSleep_fields p1 p2 now h2
  obtain ⟨f1, f2, f3, f4, f5, f6, f7, f8, f9, f10, f11, f12⟩ :=
    stepFeeding_fields p2 p3 _ h3
  obtain ⟨d1, d2, d3, d4, d5, d6, d7, d8, d9, d10, d11, d12⟩ :=
    stepDevelopment_fields p3 p' _ baby h4
  refine ⟨⟨d1.trans (f1.trans (s1.trans g1)), d2.trans (f2.trans (s2.trans g2)),
    d3.trans (f3.trans (s3.trans g3)), d4.trans (f4.trans (s4.trans g4)),
    d5.trans (f5.trans (s5.trans g5)), d6.trans (f6.trans (s6.trans g6)),
    d7.trans (f7.trans (s7.trans g7)), d8.trans (f8.trans (s8.trans g8))⟩,
    ?_, ?_, ?_, ?_⟩
  · intro hw hh hhc
    exact (d9.trans (f9.trans s9)).trans (g9 hw hh hhc)
  · intro hs
    exact (d10.trans f10).trans ((s10 (g7.trans hs)).trans g10)
  · intro hf
    exact d11.trans ((f11 ((s6.trans g6).trans hf)).trans (s11.trans g11))
  · intro hm
    exact (d12 ((f8.trans (s8.trans g8)).trans hm)).trans
      (f12.trans (s12.trans g12))

/-- A record with every raw input absent, processed as-is. -/
def c10rec : ProgressRecord :=
  { baby_id := 4, record_date := ⟨2025, 4, 1⟩, weight := none, height := none,
    head_circumference := none, feeding_times := [], sleep_schedule := [],
    milestones := [], growth_percentile := none, sleep_quality_index := none,
    feeding_efficiency := none, developmental_score := none }

/-- C10 (witness): the frame theorem applied to a record with no raw inputs,
which the processor returns untouched. -/
theorem process_frame_witness :
    (c10rec.baby_id = c10rec.baby_id ∧ c10rec.record_date = c10rec.record_date ∧
     c10rec.weight = c10rec.weight ∧ c10rec.height = c10rec.height ∧
     c10rec.head_circumference = c10rec.head_circumference ∧
     c10rec.feeding_times = c10rec.feeding_times ∧
     c10rec.sleep_schedule = c10rec.sleep_schedule ∧
     c10rec.milestones = c10rec.milestones) ∧
    (c10rec.weight = none → c10rec.height = none →
      c10rec.head_circumference = none →
      c10rec.growth_percentile = c10rec.growth_percentile) ∧
    (c10rec.sleep_schedule = [] →
      c10rec.sleep_quality_index = c10rec.sleep_quality_index) ∧
    (c10rec.feeding_times = [] →
      c10rec.feeding_efficiency = c10rec.feeding_efficiency) ∧
    (c10rec.milestones = [] →
      c10rec.developmental_score = c10rec.developmental_score) :=
  process_frame ⟨⟨2025, 1, 1⟩, some ("male")⟩ c10rec 0 c10rec (by decide)

/-- The baby of the evaluation-time counterexample. -/
def c4baby : Baby := ⟨⟨2025, 4, 1⟩, none⟩

/-- A record whose only content is a single *open* sleep session (start at
minute 0, no end time): the source substitutes `datetime.now()` for the
missing end. -/
def c4rec : ProgressRecord :=
  { baby_id := 5, record_date := ⟨2025, 4, 2⟩, weight := none, height := none,
    head_circumference := none, feeding_times := [],
    sleep_schedule := [{ start_time := 0, end_time := none, quality := none }],
    milestones := [], growth_percentile := none, sleep_quality_index := none,
    feeding_efficiency := none, developmental_score := none }

/-- Helper: the growth block leaves the record untouched when no measurement
is present. -/
theorem stepGrowth_keep (baby : Baby) (p : ProgressRecord) (hw : p.weight = none)
    (hh : p.height = none) (hhc : p.head_circumference = none) :
    stepGrowth baby p = some p := by
  unfold stepGrowth
  rw [if_neg]
  simp [hw, hh, hhc]

/-- Helper: the feeding block leaves the record untouched when the feed list
is empty. -/
theorem stepFeeding_keep (p : ProgressRecord) (age : ℤ)
    (h : p.feeding_times = []) : stepFeeding p age = some p := by
  unfold stepFeeding
  rw [if_pos h]

/-- Helper: the milestone block leaves the record untouched when the
milestone list is empty. -/
theorem stepDevelopment_keep (p : ProgressRecord) (age : ℤ) (baby : Baby)
    (h : p.milestones = []) : stepDevelopment p age baby = some p := by
  unfold stepDevelopment
  rw [if_pos h]

/-- Helper for C4: processing `c4rec` (whose only content is its sleep
schedule) writes exactly the sleep scorer's output onto the record. -/
theorem process_c4rec (t v : ℚ)
    (hv : calculateSleepQualityIndex c4rec.sleep_schedule t = some v) :
    processBabyProgress c4baby c4rec t =
      some { c4rec with sleep_quality_index := some v } := by
  unfold processBabyProgress
  rw [stepGrowth_keep c4baby c4rec rfl rfl rfl]
  show stepSleep c4rec t >>=
      (fun p2 => stepFeeding p2
          (calculateAgeInMonths c4baby.dateOfBirth c4rec.record_date) >>=
        fun p3 => stepDevelopment p3
          (calculateAgeInMonths c4baby.dateOfBirth c4rec.record_date) c4baby) = _
  have hstep : stepSleep c4rec t =
      some { c4rec with sleep_quality_index := some v } := by
    unfold stepSleep
    rw [if_neg (by simp [c4rec]), hv]
    rfl
  rw [hstep]
  show stepFeeding { c4rec with sleep_quality_index := some v }
      (calculateAgeInMonths c4baby.dateOfBirth c4rec.record_date) >>=
      (fun p3 => stepDevelopment p3
        (calculateAgeInMonths c4baby.dateOfBirth c4rec.record_date) c4baby) = _
  rw [stepFeeding_keep _ _ rfl]
  show stepDevelopment { c4rec with sleep_quality_index := some v }
      (calculateAgeInMonths c4baby.dateOfBirth c4rec.record_date) c4baby = _
  rw [stepDevelopment_keep _ _ _ rfl]

/-- C4 (counterexample): processing the same unchanged record with the same
unchanged baby at two evaluation times (minute 60 vs minute 120) yields
*different* derived outputs when a sleep session has no end time — the open
session's duration is measured up to `datetime.now()`. -/
theorem process_depends_on_evaluation_time :
    processBabyProgress c4baby c4rec 60 ≠ processBabyProgress c4baby c4rec 120 := by
  have h60 := process_c4rec 60 (440 / 7) (by
    norm_num [c4rec, calculateSleepQualityIndex, normSleepSession, hourOf,
      sortByKey, insertByKey, countInterruptions, qualityWeight, pydiv,
      min_def, max_def])
  have h120 := process_c4rec 120 (460 / 7) (by
    norm_num [c4rec, calculateSleepQualityIndex, normSleepSession, hourOf,
      sortByKey, insertByKey, countInterruptions, qualityWeight, pydiv,
      min_def, max_def])
  rw [h60, h120]
  intro hc
  have hrec := Option.some.inj hc
  have hval := congrArg ProgressRecord.sleep_quality_index hrec
  simp only [Option.some.injEq] at hval
  norm_num at hval

/-- Helper for C4: with every session end present, the sleep scorer does not
depend on the evaluation time. -/
theorem calcSleep_time_indep (sched : List SleepSession) (t₁ t₂ : ℚ)
    (h : ∀ s ∈ sched, s.end_time.isSome) :
    calculateSleepQualityIndex sched t₁ = calculateSleepQualityIndex sched t₂ := by
  unfold calculateSleepQualityIndex
  have hmap : sched.map (normSleepSession t₁) = sched.map (normSleepSession t₂) := by
    apply List.map_congr_left
    intro s hs
    obtain ⟨e, he⟩ := Option.isSome_iff_exists.mp (h s hs)
    unfold normSleepSession
    rw [he]
  rw [hmap]

/-- C4 (amended): the record processor is deterministic in its explicit
inputs *plus the evaluation time*: when every sleep session carries an end
time (in particular whenever the sleep schedule is empty), processing does not
depend on the evaluation time at all, so two runs at different times agree;
with an open sleep session the sleep-quality output genuinely depends on the
evaluation time (see the counterexample). -/
theorem process_time_independent_when_sessions_closed (baby : Baby)
    (p : ProgressRecord) (t₁ t₂ : ℚ)
    (h : ∀ s ∈ p.sleep_schedule, s.end_time.isSome) :
    processBabyProgress baby p t₁ = processBabyProgress baby p t₂ := by
  show (stepGrowth baby p).bind _ = (stepGrowth baby p).bind _
  refine Option.bind_congr ?_
  intro p1 hp1
  have h7 : p1.sleep_schedule = p.sleep_schedule :=
    (stepGrowth_fields baby p p1 (Option.mem_def.mp hp1)).2.2.2.2.2.2.1
  have hsleep : stepSleep p1 t₁ = stepSleep p1 t₂ := by
    unfold stepSleep
    by_cases hempty : p1.sleep_schedule = []
    · rw [if_pos hempty, if_pos hempty]
    · rw [if_neg hempty, if_neg hempty,
        calcSleep_time_indep p1.sleep_schedule t₁ t₂
          (fun s hs => h s (h7 ▸ hs))]
  show (stepSleep p1 t₁).bind _ = (stepSleep p1 t₂).bind _
  rw [hsleep]

/-- C4 (witness): the time-independence theorem applied to a record with one
closed sleep session, at evaluation times 0 and 100. -/
theorem process_time_independent_witness :
    processBabyProgress c4baby
      { c4rec with sleep_schedule :=
          [{ start_time := 0, end_time := some 30, quality := none }] } 0 =
    processBabyProgress c4baby
      { c4rec with sleep_schedule :=
          [{ start_time := 0, end_time := some 30, quality := none }] } 100 :=
  process_time_independent_when_sessions_closed c4baby
    { c4rec with sleep_schedule :=
        [{ start_time := 0, end_time := some 30, quality := none }] } 0 100
    (by decide)
